import Mathlib

/-!
Verification of the MCP client (`src/index.ts`) against its specification.

The development shallowly embeds the program:

* `ZodType` models the zod parameter-type nodes (`ParameterTypeNode` in the
  spec) that `zodTypeToGoogleSchema` dispatches over, including the wrapper
  kinds `ZodOptional`, `ZodNullable`, `ZodDefault` and a `zother` variant
  standing for any zod kind the translator does not recognize.
* `Schema` models the Google generative-ai `Schema` values the translator
  produces (`TargetSchemaNode` in the spec).
* `zodTypeToGoogleSchema` and `translateShape` transcribe the translator
  function of the source, including its exact unwrapping behaviour: one
  Optional/Nullable unwrap, then one Default unwrap, then one further
  Optional/Nullable unwrap, then a dispatch with a string fallback.
* `processTools`, `connectToServer`, `mkMCPClient`, `processQuery`,
  `chatLoop` and `mainRun` transcribe the tool-catalog builder and the
  conversation orchestration.  External collaborators (the Gemini chat
  session and the MCP tool provider) are modelled as scripted oracles: a
  list of the responses one concrete execution would observe.
-/

/-- The `SchemaType` enumeration of the Google generative-ai SDK. -/
inductive GoogleSchemaType where
  | string
  | number
  | integer
  | boolean
  | array
  | object
deriving DecidableEq, Repr

/-- Zod parameter-type nodes, as dispatched over by `zodTypeToGoogleSchema`
(`src/index.ts`).  Every zod node carries an optional `description`.
`znumber` carries the list of check kinds of `_def.checks` (the code tests
`checks?.some(ch => ch.kind === "int")`, and `checks` may be absent).
`zother` stands for any zod kind the translator has no branch for. -/
inductive ZodType where
  | zstring (description : Option String)
  | znumber (checks : Option (List String)) (description : Option String)
  | zboolean (description : Option String)
  | zenum (values : List String) (description : Option String)
  | zarray (elem : ZodType) (description : Option String)
  | zobject (shape : List (String × ZodType)) (description : Option String)
  | zoptional (inner : ZodType) (description : Option String)
  | znullable (inner : ZodType) (description : Option String)
  | zdefault (inner : ZodType) (description : Option String)
  | zother (description : Option String)

/-- The `description` accessor available on every zod type. -/
def ZodType.description : ZodType → Option String
  | .zstring d => d
  | .znumber _ d => d
  | .zboolean d => d
  | .zenum _ d => d
  | .zarray _ d => d
  | .zobject _ d => d
  | .zoptional _ d => d
  | .znullable _ d => d
  | .zdefault _ d => d
  | .zother d => d

/-- Google generative-ai `Schema` values, with the fields the client
populates: type, description, enum values, format, array items, object
properties and the (never populated) required list. -/
inductive Schema where
  | mk (type : GoogleSchemaType) (description : Option String)
       (enum : Option (List String)) (format : Option String)
       (items : Option Schema) (properties : Option (List (String × Schema)))
       (required : Option (List String))

def Schema.type : Schema → GoogleSchemaType
  | .mk t _ _ _ _ _ _ => t

def Schema.description : Schema → Option String
  | .mk _ d _ _ _ _ _ => d

def Schema.enum : Schema → Option (List String)
  | .mk _ _ e _ _ _ _ => e

def Schema.format : Schema → Option String
  | .mk _ _ _ f _ _ _ => f

def Schema.items : Schema → Option Schema
  | .mk _ _ _ _ i _ _ => i

def Schema.properties : Schema → Option (List (String × Schema))
  | .mk _ _ _ _ _ p _ => p

def Schema.required : Schema → Option (List String)
  | .mk _ _ _ _ _ _ r => r

/-- First unwrapping step of `zodTypeToGoogleSchema`: if the node is a
`ZodOptional` or `ZodNullable`, replace it by its inner type (one layer). -/
def unwrapOptNull : ZodType → ZodType
  | .zoptional inner _ => inner
  | .znullable inner _ => inner
  | t => t

/-- Second unwrapping step: if the node is a `ZodDefault`, replace it by
`_def.innerType` (one layer). -/
def unwrapDefault : ZodType → ZodType
  | .zdefault inner _ => inner
  | t => t

/-- The full unwrapping the source performs before dispatching: one
Optional/Nullable unwrap, one Default unwrap, then a re-check for
Optional/Nullable after unwrapping the default. -/
def unwrapShallow (t : ZodType) : ZodType :=
  unwrapOptNull (unwrapDefault (unwrapOptNull t))

theorem sizeOf_unwrapOptNull_le (t : ZodType) : sizeOf (unwrapOptNull t) ≤ sizeOf t := by
  cases t
  all_goals simp [unwrapOptNull]
  all_goals omega

theorem sizeOf_unwrapDefault_le (t : ZodType) : sizeOf (unwrapDefault t) ≤ sizeOf t := by
  cases t
  all_goals simp [unwrapDefault]
  all_goals omega

theorem sizeOf_unwrapShallow_le (t : ZodType) : sizeOf (unwrapShallow t) ≤ sizeOf t :=
  Nat.le_trans (sizeOf_unwrapOptNull_le _)
    (Nat.le_trans (sizeOf_unwrapDefault_le _) (sizeOf_unwrapOptNull_le _))

mutual

/-- Shallow embedding of `zodTypeToGoogleSchema` (`src/index.ts`, lines
173-247).  The source reassigns `zodType` through the three conditional
unwrapping steps (`unwrapShallow`) and then runs an `instanceof` chain over
the six recognized base kinds, with a string fallback for everything else
(including any modifier layers that survived the shallow unwrapping).
The `znumber` branch mirrors
`const isInt = zodType._def.checks?.some(ch => ch.kind === "int")`. -/
def zodTypeToGoogleSchema (t0 : ZodType) : Schema :=
  match heq : unwrapShallow t0 with
  | .zstring d => .mk .string d none none none none none
  | .znumber checks d =>
      .mk (if (checks.getD []).any (fun c => c == "int") then .integer else .number)
        d none none none none none
  | .zboolean d => .mk .boolean d none none none none none
  | .zenum vs d => .mk .string d (some vs) (some "enum") none none none
  | .zarray elem d => .mk .array d none none (some (zodTypeToGoogleSchema elem)) none none
  | .zobject shape d => .mk .object d none none none (some (translateShape shape)) none
  | u => .mk .string u.description none none none none none
termination_by sizeOf t0
decreasing_by
  all_goals
    have h1 := sizeOf_unwrapShallow_le t0
    rw [heq] at h1
    simp at h1
    omega

/-- The `for (const key in shape)` loop of the `ZodObject` branch:
translate every field of the object shape, in iteration order. -/
def translateShape : List (String × ZodType) → List (String × Schema)
  | [] => []
  | (k, v) :: rest => (k, zodTypeToGoogleSchema v) :: translateShape rest
termination_by shape => sizeOf shape
decreasing_by
  all_goals simp
  all_goals omega

end

/-- Is the node one of the three modifier kinds (Optional/Nullable/Default)? -/
def isModifier : ZodType → Bool
  | .zoptional _ _ => true
  | .znullable _ _ => true
  | .zdefault _ _ => true
  | _ => false

/-- Modelled from the spec: "Unwrap modifiers: while the node is Optional,
Nullable, or Default, replace it with its inner type ... unwrap until a base
kind remains."  This is the fully-unwrapped base node of the spec, to be
compared with the shallow unwrapping the source performs. -/
def fullUnwrap : ZodType → ZodType
  | .zoptional inner _ => fullUnwrap inner
  | .znullable inner _ => fullUnwrap inner
  | .zdefault inner _ => fullUnwrap inner
  | t => t

/-- A Boolean wrapped in three Optional layers: the source unwraps only two
Optional/Nullable layers (plus one Default layer in between), so the third
layer survives and the dispatch falls into the string fallback. -/
def tripleOptBool : ZodType :=
  .zoptional (.zoptional (.zoptional (.zboolean none) none) none) none

/-- A depth-three mixed modifier chain that the shallow unwrapping does
remove completely: Nullable around Default around Optional. -/
def mixedChain : ZodType :=
  .znullable (.zdefault (.zoptional (.zenum ["a"] none) none) none) none

/-- One tool as returned by the MCP server's `listTools`: a name, an
optional description, and the `inputSchema.properties` map of zod types
(which the source guards with `if (inputProperties)`, so it may be absent). -/
structure McpTool where
  name : String
  description : Option String
  inputSchemaProperties : Option (List (String × ZodType))

/-- A Google `FunctionDeclaration`: name, description, parameters schema. -/
structure FunctionDeclaration where
  name : String
  description : Option String
  parameters : Schema

/-- A Google `FunctionDeclarationsTool`, wrapping a declaration list. -/
structure FunctionDeclarationsTool where
  functionDeclarations : List FunctionDeclaration

/-- The per-tool body of `processTools` (`src/index.ts`, lines 138-165):
translate every entry of the tool's parameter map, wrap the properties in a
top-level object schema carrying the tool's description, and emit a single
function declaration. -/
def mkGoogleTool (tool : McpTool) : FunctionDeclarationsTool :=
  let googleProperties := translateShape (tool.inputSchemaProperties.getD [])
  let googleParameters : Schema :=
    .mk .object tool.description none none none (some googleProperties) none
  { functionDeclarations :=
      [{ name := tool.name, description := tool.description,
         parameters := googleParameters }] }

/-- Shallow embedding of `processTools` (`src/index.ts`, lines 135-168).
The provider round-trip `mcp.listTools()` is modelled by its outcome: either
a failure or the returned tool list. -/
def processTools (toolsResult : Except String (List McpTool)) :
    Except String (List FunctionDeclarationsTool) :=
  match toolsResult with
  | .error e => .error e
  | .ok ts => .ok (ts.map mkGoogleTool)

/-- The single tool of the end-to-end scenario of the spec:
`get_dataset_metadata(name: String)`. -/
def demoTool : McpTool :=
  { name := "get_dataset_metadata", description := some "Get metadata for a dataset",
    inputSchemaProperties := some [("name", .zstring none)] }

/-- Model of `String.prototype.endsWith`, over character lists so that it
evaluates inside the kernel. -/
def strEndsWith (s sfx : String) : Bool := sfx.data.isSuffixOf s.data

/-- The mutable fields of `MCPClient` that `connectToServer` assigns:
the translated tool catalog (`this.tools`, initially empty) and the chat
session (`this.session`, initialized with the catalog; `none` before
`startChat` ran). -/
structure ClientState where
  tools : List FunctionDeclarationsTool
  sessionTools : Option (List FunctionDeclarationsTool)

/-- Shallow embedding of the `MCPClient` constructor (`src/index.ts`, lines
32-40): reads `GEMINI_API_KEY` from the environment and throws before any
connection attempt when it is unset (or empty, which is falsy in JS). -/
def mkMCPClient (env : List (String × String)) : Except String ClientState :=
  match (env.find? fun p => p.1 == "GEMINI_API_KEY").map (fun p => p.2) with
  | none => .error "GEMINI_API_KEY is not set"
  | some k =>
    if k == "" then .error "GEMINI_API_KEY is not set"
    else .ok { tools := [], sessionTools := none }

/-- Shallow embedding of `connectToServer` (`src/index.ts`, lines 43-75).
`connectOutcome` is the outcome of the transport connect call
`this.mcp.connect(this.transport)`; the source does not await that promise,
so the outcome is discarded.  `toolsListing` is the outcome of the
`mcp.listTools()` round-trip inside `processTools`.  The `catch` block logs
and rethrows, so failures of the awaited steps propagate unchanged. -/
def connectToServer (st : ClientState) (serverScriptPath : String)
    (connectOutcome : Except String Unit)
    (toolsListing : Except String (List McpTool)) : Except String ClientState :=
  if !strEndsWith serverScriptPath ".js" && !strEndsWith serverScriptPath ".py" then
    .error "Server script must be a .js or .py file"
  else
    match connectOutcome, processTools toolsListing with
    | _, .error e => .error e
    | _, .ok tools => .ok { st with tools := tools, sessionTools := some tools }

/-- One requested tool call of a model response: the tool name and the
argument map.  Argument values are kept as their JSON-serialized text. -/
structure FunctionCall where
  name : String
  args : List (String × String)

/-- One model response: the free-form text of `response.text()` and the
optional tool-call list of `response.functionCalls()` (which can yield no
list at all rather than an empty list). -/
structure ModelResponse where
  text : String
  functionCalls : Option (List FunctionCall)

/-- One element of an MCP tool result's `content` array. -/
structure ToolContentItem where
  text : String

/-- An MCP `callTool` result; the source reads `result.content[0].text`
unconditionally. -/
structure ToolResult where
  content : List ToolContentItem

/-- The state the orchestrator threads through one execution.  The two
external collaborators are modelled as scripted oracles — the list of
responses this concrete execution observes from the chat session and from
the tool provider — and the state also records, for the theorems, which
messages were sent into the session and which tool invocations were made. -/
structure OrchestratorState where
  sessionScript : List (Except String ModelResponse)
  toolScript : List (Except String ToolResult)
  sentMessages : List String
  calledTools : List (String × List (String × String))

/-- Model of `this.session.sendMessage(msg)`: consume the next scripted
model response (or fail if the model call fails). -/
def sendMessage (st : OrchestratorState) (msg : String) :
    Except String (ModelResponse × OrchestratorState) :=
  match st.sessionScript with
  | [] => .error "model session produced no response"
  | .error e :: _ => .error e
  | .ok r :: rest =>
    .ok (r, { st with sessionScript := rest,
                      sentMessages := st.sentMessages ++ [msg] })

/-- Model of `this.mcp.callTool(...)`: consume the next scripted tool
result (or fail if the provider invocation fails), recording the
invocation. -/
def callTool (st : OrchestratorState) (name : String)
    (args : List (String × String)) :
    Except String (ToolResult × OrchestratorState) :=
  match st.toolScript with
  | [] => .error "tool provider produced no response"
  | .error e :: _ => .error e
  | .ok r :: rest =>
    .ok (r, { st with toolScript := rest,
                      calledTools := st.calledTools ++ [(name, args)] })

/-- Model of `JSON.stringify(toolArgs)` for an argument map whose values
are already serialized. -/
def stringifyArgs (args : List (String × String)) : String :=
  "\x7b" ++ String.intercalate "," (args.map fun p => "\"" ++ p.1 ++ "\":" ++ p.2) ++ "\x7d"

/-- The descriptive line the source pushes per tool call:
`[Calling tool ${toolName} with args ${JSON.stringify(toolArgs)}]`. -/
def callLine (c : FunctionCall) : String :=
  "[Calling tool " ++ c.name ++ " with args " ++ stringifyArgs c.args ++ "]"

/-- The fixed framing prepended to a tool result before it is sent back
into the chat session. -/
def answerPreamble : String :=
  "Using the following information, answer the original query: "

/-- The `for (const functionCall of result.response.functionCalls() ?? [])`
loop of `processQuery`: per call, push the descriptive line, invoke the
tool, read `content[0].text` (failing like the unchecked access would if
the content list is empty), send the framed result into the same session,
and push the session's response text. -/
def processCalls (st : OrchestratorState) (calls : List FunctionCall)
    (finalText : List String) :
    Except String (List String × OrchestratorState) :=
  match calls with
  | [] => .ok (finalText, st)
  | c :: rest =>
    let finalText1 := finalText ++ [callLine c]
    match callTool st c.name c.args with
    | .error e => .error e
    | .ok (result, st1) =>
      match result.content.head? with
      | none => .error "TypeError: cannot read properties of undefined"
      | some item =>
        match sendMessage st1 (answerPreamble ++ item.text) with
        | .error e => .error e
        | .ok (gemini, st2) => processCalls st2 rest (finalText1 ++ [gemini.text])

/-- Shallow embedding of `processQuery` (`src/index.ts`, lines 77-102):
send the query, start the output with the response text, run the tool-call
loop, and join the accumulated segments with line breaks.  Any failure
of a session call or provider invocation propagates as the bare error —
the partially accumulated output is not returned. -/
def processQuery (st : OrchestratorState) (query : String) :
    Except String (String × OrchestratorState) :=
  match sendMessage st query with
  | .error e => .error e
  | .ok (result, st1) =>
    match processCalls st1 (result.functionCalls.getD []) [result.text] with
    | .error e => .error e
    | .ok (finalText, st2) => .ok (String.intercalate "\n" finalText, st2)

/-- Model of `String.prototype.toLowerCase`, over character lists. -/
def toLowerStr (s : String) : String := ⟨s.data.map Char.toLower⟩

/-- Model of `String.prototype.trim`, over character lists. -/
def trimStr (s : String) : String :=
  ⟨((s.data.dropWhile Char.isWhitespace).reverse.dropWhile Char.isWhitespace).reverse⟩

/-- How the interactive loop ended: a quit command, the input lines ran
out, or an error escaped `processQuery` (which the `try` block wrapping the
whole `while` loop catches, ending the loop). -/
inductive LoopEnd where
  | quit
  | exhausted
  | errored (e : String)
deriving DecidableEq, Repr

/-- Shallow embedding of `chatLoop` (`src/index.ts`, lines 104-127) over a
finite list of input lines: read a line; stop on a case-insensitive,
trimmed "quit"; otherwise process the query and print the response.  The
`try`/`catch` wraps the whole `while` loop, so an error thrown by
`processQuery` terminates the loop (it is logged and the reader closed);
the loop does not return to the prompt afterwards. -/
def chatLoop (st : OrchestratorState) (inputs : List String) :
    List String × LoopEnd :=
  match inputs with
  | [] => ([], .exhausted)
  | msg :: rest =>
    if trimStr (toLowerStr msg) = "quit" then ([], .quit)
    else
      match processQuery st msg with
      | .error e => ([], .errored e)
      | .ok (response, st1) =>
        let next := chatLoop st1 rest
        (response :: next.1, next.2)

/-- How the whole process ended. -/
inductive MainOutcome where
  | exited (code : Nat)
  | abnormal (msg : String)
deriving DecidableEq, Repr

/-- Shallow embedding of `main` (`src/index.ts`, lines 249-262):
`try { connect to each server path; chatLoop } finally { cleanup; process.exit(0) }`.
`chatLoop` never throws (it catches internally), so the try-block outcome
is `connect`'s failure or the loop result; the `finally` block runs
`cleanup` and then unconditionally calls `process.exit(0)`, so the
try-block outcome never influences the exit code.  Only an exception
thrown by `cleanup` itself (which supersedes any pending one) escapes
`main` and surfaces as an abnormal termination. -/
def mainRun (connect : Except String Unit) (inputs : List String)
    (st : OrchestratorState) (cleanup : Except String Unit) : MainOutcome :=
  let tryOutcome : Except String (List String × LoopEnd) :=
    match connect with
    | .error e => .error e
    | .ok _ => .ok (chatLoop st inputs)
  match tryOutcome, cleanup with
  | _, .error e => .abnormal e
  | _, .ok _ => .exited 0

/-- A state in which processing a query triggers one tool call whose
provider invocation fails, while a follow-up response for a second query is
scripted and would be available. -/
def failingToolState : OrchestratorState :=
  ⟨[Except.ok ⟨"Let me check.", some [⟨"get_dataset_metadata", [("name", "\"X\"")]⟩]⟩,
    Except.ok ⟨"Answer to the second question.", none⟩],
   [Except.error "tool provider crashed"], [], []⟩

/-- An orchestrator state with empty scripts. -/
def emptyState : OrchestratorState := ⟨[], [], [], []⟩

theorem fullUnwrap_unwrapOptNull (t : ZodType) :
    fullUnwrap (unwrapOptNull t) = fullUnwrap t := by
  cases t <;> simp [unwrapOptNull, fullUnwrap]

theorem fullUnwrap_unwrapDefault (t : ZodType) :
    fullUnwrap (unwrapDefault t) = fullUnwrap t := by
  cases t <;> simp [unwrapDefault, fullUnwrap]

theorem fullUnwrap_unwrapShallow (t : ZodType) :
    fullUnwrap (unwrapShallow t) = fullUnwrap t := by
  simp [unwrapShallow, fullUnwrap_unwrapOptNull, fullUnwrap_unwrapDefault]

theorem unwrapOptNull_of_not_modifier (t : ZodType) (h : isModifier t = false) :
    unwrapOptNull t = t := by
  cases t <;> simp [isModifier] at h ⊢ <;> simp [unwrapOptNull]

theorem unwrapDefault_of_not_modifier (t : ZodType) (h : isModifier t = false) :
    unwrapDefault t = t := by
  cases t <;> simp [isModifier] at h ⊢ <;> simp [unwrapDefault]

theorem fullUnwrap_of_not_modifier (t : ZodType) (h : isModifier t = false) :
    fullUnwrap t = t := by
  cases t <;> simp [isModifier] at h ⊢ <;> simp [fullUnwrap]

theorem unwrapShallow_idem_of_not_modifier (t : ZodType)
    (h : isModifier (unwrapShallow t) = false) :
    unwrapShallow (unwrapShallow t) = unwrapShallow t := by
  conv_lhs => rw [unwrapShallow]
  rw [unwrapOptNull_of_not_modifier _ h, unwrapDefault_of_not_modifier _ h,
    unwrapOptNull_of_not_modifier _ h]

/-- Every field of an object shape is translated recursively, in order. -/
theorem translateShape_eq_map (shape : List (String × ZodType)) :
    translateShape shape = shape.map fun p => (p.1, zodTypeToGoogleSchema p.2) := by
  induction shape with
  | nil => simp [translateShape]
  | cons p rest ih =>
    obtain ⟨k, v⟩ := p
    simp [translateShape, ih]

/-- Joining a single segment with `String.intercalate` is that segment. -/
theorem intercalate_single (s a : String) : String.intercalate s [a] = a := rfl

/-- The tool-call loop on aligned scripts: given one scripted follow-up
model response and one scripted successful tool result per requested call,
the loop appends, per call in order, the descriptive line and the follow-up
response text, records every tool invocation in order, and sends every
framed tool-result message into the same session. -/
theorem processCalls_script (calls : List FunctionCall) (follows : List ModelResponse)
    (toolTexts : List String) (rest1 : List (Except String ModelResponse))
    (rest2 : List (Except String ToolResult)) (ms : List String)
    (tc : List (String × List (String × String))) (acc : List String)
    (hf : follows.length = calls.length) (ht : toolTexts.length = calls.length) :
    processCalls
        ⟨follows.map Except.ok ++ rest1,
         toolTexts.map (fun s => Except.ok ⟨[⟨s⟩]⟩) ++ rest2, ms, tc⟩
        calls acc
      = .ok (acc ++ (List.zipWith (fun c f => [callLine c, f.text]) calls follows).flatten,
             ⟨rest1, rest2, ms ++ toolTexts.map (fun s => answerPreamble ++ s),
              tc ++ calls.map fun c => (c.name, c.args)⟩) := by
  induction calls generalizing follows toolTexts ms tc acc with
  | nil =>
    cases follows with
    | cons f fs => simp at hf
    | nil =>
      cases toolTexts with
      | cons s ss => simp at ht
      | nil => simp [processCalls]
  | cons c cs ih =>
    cases follows with
    | nil => simp at hf
    | cons f fs =>
      cases toolTexts with
      | nil => simp at ht
      | cons s ss =>
        have hf2 : fs.length = cs.length := by simpa using hf
        have ht2 : ss.length = cs.length := by simpa using ht
        have step := ih fs ss (ms ++ [answerPreamble ++ s]) (tc ++ [(c.name, c.args)])
          (acc ++ [callLine c] ++ [f.text]) hf2 ht2
        simp only [List.map_cons, List.cons_append, processCalls, callTool, sendMessage]
        simp only [List.head?]
        rw [step]
        simp [List.append_assoc]

/-- C1 counterexample: translating a Boolean wrapped in three Optional
modifiers yields a string schema, while translating the fully-unwrapped base
node yields a boolean schema — so `translate` is not invariant under
modifier chains of arbitrary depth. -/
theorem translate_modifier_invariance_cex :
    fullUnwrap tripleOptBool = .zboolean none ∧
    zodTypeToGoogleSchema tripleOptBool = .mk .string none none none none none none ∧
    zodTypeToGoogleSchema (.zboolean none) = .mk .boolean none none none none none none ∧
    zodTypeToGoogleSchema tripleOptBool ≠ zodTypeToGoogleSchema (fullUnwrap tripleOptBool) := by
  have h1 : zodTypeToGoogleSchema tripleOptBool = .mk .string none none none none none none := by
    simp [zodTypeToGoogleSchema, tripleOptBool, unwrapShallow, unwrapOptNull, unwrapDefault,
      ZodType.description]
  have h2 : zodTypeToGoogleSchema (.zboolean none) = .mk .boolean none none none none none none := by
    simp [zodTypeToGoogleSchema, unwrapShallow, unwrapOptNull, unwrapDefault]
  refine ⟨rfl, h1, h2, ?_⟩
  rw [show fullUnwrap tripleOptBool = ZodType.zboolean none from rfl, h1, h2]
  simp

/-- C1 (amended): `translate` agrees with translating the fully-unwrapped
base node for every modifier chain that the source's shallow unwrapping
(one Optional/Nullable layer, one Default layer, one further
Optional/Nullable layer) fully removes; deeper chains can differ (see the
counterexample). -/
theorem translate_modifier_invariance_shallow (t : ZodType)
    (h : isModifier (unwrapShallow t) = false) :
    zodTypeToGoogleSchema t = zodTypeToGoogleSchema (fullUnwrap t) := by
  have hfu : fullUnwrap t = unwrapShallow t := by
    rw [← fullUnwrap_unwrapShallow t, fullUnwrap_of_not_modifier _ h]
  rw [hfu]
  conv_lhs => rw [zodTypeToGoogleSchema.eq_def]
  conv_rhs => rw [zodTypeToGoogleSchema.eq_def]
  rw [unwrapShallow_idem_of_not_modifier t h]

theorem translate_modifier_invariance_shallow_witness :
    isModifier (unwrapShallow mixedChain) = false ∧
    zodTypeToGoogleSchema mixedChain = zodTypeToGoogleSchema (fullUnwrap mixedChain) :=
  ⟨rfl, translate_modifier_invariance_shallow mixedChain rfl⟩

/-- C4: `zodTypeToGoogleSchema` is a total Lean function (it exists as a
`def` over all of `ZodType`), and every node whose fully-unwrapped base kind
is unrecognized (`zother`) is translated to a string schema by the final
else branch — no input makes the translation fail. -/
theorem translate_unrecognized_fallback (t : ZodType) (d : Option String)
    (h : fullUnwrap t = .zother d) :
    (zodTypeToGoogleSchema t).type = .string := by
  rw [zodTypeToGoogleSchema.eq_def]
  split
  all_goals try rfl
  all_goals
    rename_i heq
    rw [← fullUnwrap_unwrapShallow t, heq] at h
    simp [fullUnwrap] at h

theorem translate_unrecognized_fallback_witness :
    fullUnwrap (.zdefault (.zdefault (.zother none) none) none) = .zother none ∧
    (zodTypeToGoogleSchema (.zdefault (.zdefault (.zother none) none) none)).type = .string :=
  ⟨rfl, translate_unrecognized_fallback _ none rfl⟩

/-- C5: an Enum node translates to a string schema with format marker
"enum" and the value list copied verbatim in order; in particular for
`Enum(["a","b"])`. -/
theorem translate_enum_spec :
    (∀ (vs : List String) (d : Option String),
      zodTypeToGoogleSchema (.zenum vs d)
        = .mk .string d (some vs) (some "enum") none none none) ∧
    zodTypeToGoogleSchema (.zenum ["a", "b"] none)
      = .mk .string none (some ["a", "b"]) (some "enum") none none none := by
  constructor
  · intro vs d
    simp [zodTypeToGoogleSchema, unwrapShallow, unwrapOptNull, unwrapDefault]
  · simp [zodTypeToGoogleSchema, unwrapShallow, unwrapOptNull, unwrapDefault]

/-- C6: an Object node translates to kind=object with `properties` mapping
every field name to the recursive translation of its field type; a Number
field becomes integer exactly when its checks carry an "int" constraint,
else number; the empty Object yields kind=object with an empty (but
present) properties mapping. -/
theorem translate_object_number_spec :
    (∀ (shape : List (String × ZodType)) (d : Option String),
      zodTypeToGoogleSchema (.zobject shape d)
        = .mk .object d none none none
            (some (shape.map fun p => (p.1, zodTypeToGoogleSchema p.2))) none) ∧
    (∀ (checks : Option (List String)) (d : Option String),
      ((zodTypeToGoogleSchema (.znumber checks d)).type = .integer
        ↔ (checks.getD []).any (fun c => c == "int") = true) ∧
      ((checks.getD []).any (fun c => c == "int") = false →
        (zodTypeToGoogleSchema (.znumber checks d)).type = .number)) ∧
    zodTypeToGoogleSchema (.zobject [] none)
      = .mk .object none none none none (some []) none ∧
    zodTypeToGoogleSchema
        (.zobject [("x", .znumber (some ["int"]) none), ("y", .zstring none)] none)
      = .mk .object none none none none
          (some [("x", .mk .integer none none none none none none),
                 ("y", .mk .string none none none none none none)]) none := by
  refine ⟨?_, ?_, ?_, ?_⟩
  · intro shape d
    rw [← translateShape_eq_map]
    simp [zodTypeToGoogleSchema, unwrapShallow, unwrapOptNull, unwrapDefault]
  · intro checks d
    have hnum : zodTypeToGoogleSchema (.znumber checks d)
        = .mk (if (checks.getD []).any (fun c => c == "int") then .integer else .number)
            d none none none none none := by
      simp [zodTypeToGoogleSchema, unwrapShallow, unwrapOptNull, unwrapDefault]
    rcases hb : (checks.getD []).any (fun c => c == "int") with _ | _
    · rw [hb] at hnum
      simp only [if_neg Bool.false_ne_true] at hnum
      rw [hnum]
      refine ⟨?_, fun _ => rfl⟩
      constructor
      · intro hcon
        simp [Schema.type] at hcon
      · intro hcon
        simp at hcon
    · rw [hb] at hnum
      simp only [if_pos rfl] at hnum
      rw [hnum]
      exact ⟨⟨fun _ => rfl, fun _ => rfl⟩, fun hcon => by simp at hcon⟩
  · simp [zodTypeToGoogleSchema, unwrapShallow, unwrapOptNull, unwrapDefault, translateShape]
  · simp [zodTypeToGoogleSchema, unwrapShallow, unwrapOptNull, unwrapDefault, translateShape]

/-- C7: the catalog builder produces exactly one declaration per listed
tool, whose parameters schema is a kind=object node carrying the tool's own
description, whose properties are the translations of every entry of the
tool's top-level parameter map, and whose required list is never
populated. -/
theorem processTools_declarations (tools : List McpTool)
    (gts : List FunctionDeclarationsTool)
    (h : processTools (.ok tools) = .ok gts) :
    gts = tools.map mkGoogleTool ∧ gts.length = tools.length ∧
    ∀ tool ∈ tools, ∃ d : FunctionDeclaration,
      (mkGoogleTool tool).functionDeclarations = [d] ∧
      d.name = tool.name ∧ d.description = tool.description ∧
      d.parameters.type = .object ∧
      d.parameters.description = tool.description ∧
      d.parameters.properties
        = some ((tool.inputSchemaProperties.getD []).map
            fun p => (p.1, zodTypeToGoogleSchema p.2)) ∧
      d.parameters.required = none := by
  have hg : gts = tools.map mkGoogleTool := by
    simpa [processTools] using h.symm
  refine ⟨hg, by rw [hg, List.length_map], ?_⟩
  intro tool _
  refine ⟨_, rfl, rfl, rfl, rfl, rfl, ?_, rfl⟩
  simp [mkGoogleTool, Schema.properties, translateShape_eq_map]

theorem processTools_declarations_witness :
    [mkGoogleTool demoTool] = [demoTool].map mkGoogleTool ∧
    [mkGoogleTool demoTool].length = [demoTool].length ∧
    ∀ tool ∈ [demoTool], ∃ d : FunctionDeclaration,
      (mkGoogleTool tool).functionDeclarations = [d] ∧
      d.name = tool.name ∧ d.description = tool.description ∧
      d.parameters.type = .object ∧
      d.parameters.description = tool.description ∧
      d.parameters.properties
        = some ((tool.inputSchemaProperties.getD []).map
            fun p => (p.1, zodTypeToGoogleSchema p.2)) ∧
      d.parameters.required = none :=
  processTools_declarations [demoTool] [mkGoogleTool demoTool] rfl

/-- C8 counterexample: a transport connection failure does not make
`connectToServer` fail — the connect call is not awaited and its outcome is
discarded, so with a healthy catalog fetch the method still succeeds and
initializes the session. -/
theorem connect_discards_transport_failure_cex :
    connectToServer { tools := [], sessionTools := none }
        "/git/kaggle-nodejs-mcp-server/build/index.js"
        (.error "transport connection refused") (.ok [demoTool])
      = .ok { tools := [mkGoogleTool demoTool],
              sessionTools := some [mkGoogleTool demoTool] } := rfl

/-- C8 (amended): a catalog-fetch failure propagates out of
`connectToServer` without retry and without producing any partial catalog
or chat session (the result is the bare error), and a missing API
credential is raised at construction time, before any connection attempt;
the transport-connect outcome itself, however, is discarded because the
connect call is not awaited (see the counterexample). -/
theorem connect_failure_modes (st : ClientState) (path : String)
    (connectOutcome : Except String Unit) (e : String)
    (env : List (String × String))
    (hp : strEndsWith path ".js" = true)
    (henv : (env.find? fun p => p.1 == "GEMINI_API_KEY") = none) :
    connectToServer st path connectOutcome (.error e) = .error e ∧
    mkMCPClient env = .error "GEMINI_API_KEY is not set" := by
  constructor
  · simp [connectToServer, hp, processTools]
  · simp [mkMCPClient, henv]

theorem connect_failure_modes_witness :
    strEndsWith "/git/kaggle-nodejs-mcp-server/build/index.js" ".js" = true ∧
    (([] : List (String × String)).find? fun p => p.1 == "GEMINI_API_KEY") = none ∧
    connectToServer { tools := [], sessionTools := none }
        "/git/kaggle-nodejs-mcp-server/build/index.js" (.ok ())
        (.error "MCP error: listTools failed") = .error "MCP error: listTools failed" ∧
    mkMCPClient [] = .error "GEMINI_API_KEY is not set" := by
  refine ⟨rfl, rfl, ?_⟩
  have h := connect_failure_modes { tools := [], sessionTools := none }
    "/git/kaggle-nodejs-mcp-server/build/index.js" (.ok ())
    "MCP error: listTools failed" [] rfl rfl
  exact h

/-- C2: for a query whose model response requests `calls` tool calls,
`processQuery` returns the initial response text followed, per tool call in
the model's order, by the descriptive `[Calling tool ...]` line and by the
session's follow-up response text after the framed tool result was sent
back into the same session, all joined with line breaks; the recorded tool
invocations and sent messages confirm the sequencing.  One tool call yields
exactly three segments. -/
theorem processQuery_tool_call_segments (q t0 : String) (calls : List FunctionCall)
    (follows : List ModelResponse) (toolTexts : List String)
    (rest1 : List (Except String ModelResponse))
    (rest2 : List (Except String ToolResult)) (ms : List String)
    (tc : List (String × List (String × String)))
    (hf : follows.length = calls.length) (ht : toolTexts.length = calls.length) :
    processQuery
        ⟨Except.ok ⟨t0, some calls⟩ :: (follows.map Except.ok ++ rest1),
         toolTexts.map (fun s => Except.ok ⟨[⟨s⟩]⟩) ++ rest2, ms, tc⟩ q
      = .ok (String.intercalate "\n"
               (t0 :: (List.zipWith (fun c f => [callLine c, f.text]) calls follows).flatten),
             ⟨rest1, rest2,
              (ms ++ [q]) ++ toolTexts.map (fun s => answerPreamble ++ s),
              tc ++ calls.map fun c => (c.name, c.args)⟩) := by
  have step := processCalls_script calls follows toolTexts rest1 rest2 (ms ++ [q]) tc [t0] hf ht
  simp only [processQuery, sendMessage, Option.getD_some]
  rw [step]
  rfl

theorem processQuery_tool_call_segments_witness :
    processQuery
        ⟨[Except.ok ⟨"Let me look that up.",
            some [⟨"get_dataset_metadata", [("name", "\"X\"")]⟩]⟩,
          Except.ok ⟨"Dataset X has three columns.", none⟩],
         [Except.ok ⟨[⟨"metadata for X"⟩]⟩], [], []⟩ "describe dataset X"
      = .ok ("Let me look that up.\n[Calling tool get_dataset_metadata with args \x7b\"name\":\"X\"\x7d]\nDataset X has three columns.",
             ⟨[], [],
              ["describe dataset X",
               answerPreamble ++ "metadata for X"],
              [("get_dataset_metadata", [("name", "\"X\"")])]⟩) := by
  have h := processQuery_tool_call_segments "describe dataset X" "Let me look that up."
    [⟨"get_dataset_metadata", [("name", "\"X\"")]⟩]
    [⟨"Dataset X has three columns.", none⟩] ["metadata for X"] [] [] [] [] rfl rfl
  exact h.trans (by rfl)

/-- C10: when the model response carries no tool calls — whether the
tool-call accessor yields no list at all (`none`) or an empty list —
`processQuery` makes no tool-provider invocation (the recorded invocations
and the tool script are untouched) and returns exactly the response's free
text. -/
theorem processQuery_no_tool_calls (q t0 : String) (fc : Option (List FunctionCall))
    (rest1 : List (Except String ModelResponse)) (rest2 : List (Except String ToolResult))
    (ms : List String) (tc : List (String × List (String × String)))
    (h : fc.getD [] = []) :
    processQuery ⟨Except.ok ⟨t0, fc⟩ :: rest1, rest2, ms, tc⟩ q
      = .ok (t0, ⟨rest1, rest2, ms ++ [q], tc⟩) := by
  simp [processQuery, sendMessage, processCalls, h, intercalate_single]

theorem processQuery_no_tool_calls_witness :
    (Option.getD (none : Option (List FunctionCall)) [] = []) ∧
    processQuery ⟨[Except.ok ⟨"Hi there.", none⟩], [], [], []⟩ "hello"
      = .ok ("Hi there.", ⟨[], [], ["hello"], []⟩) :=
  ⟨rfl, (processQuery_no_tool_calls "hello" "Hi there." none [] [] [] [] rfl).trans (by rfl)⟩

/-- C3 counterexample: when a provider invocation fails, `processQuery`
indeed fails without returning the partial output, but the interactive
loop does NOT accept the next query afterwards: the `try`/`catch` wraps the
whole `while` loop, so the loop ends with the error after producing no
further interaction — the queued second query is never processed. -/
theorem processQuery_failure_loop_cex :
    processQuery failingToolState "describe dataset X" = .error "tool provider crashed" ∧
    chatLoop failingToolState ["describe dataset X", "another question", "quit"]
      = ([], .errored "tool provider crashed") := ⟨rfl, rfl⟩

/-- C3 (amended): a failing provider (or model) call makes `processQuery`
fail with the bare error — none of the partially accumulated output is
returned — and the error, caught by the `try` block wrapping the whole
loop, terminates the interactive loop: no further queries are accepted. -/
theorem processQuery_failure_aborts_loop (st : OrchestratorState) (q e : String)
    (inputs : List String) (h : processQuery st q = .error e)
    (hq : trimStr (toLowerStr q) ≠ "quit") :
    chatLoop st (q :: inputs) = ([], .errored e) ∧
    ∀ (out : String) (st2 : OrchestratorState), processQuery st q ≠ .ok (out, st2) := by
  constructor
  · simp [chatLoop, hq, h]
  · intro out st2 hcon
    rw [h] at hcon
    simp at hcon

theorem processQuery_failure_aborts_loop_witness :
    processQuery failingToolState "describe dataset X" = .error "tool provider crashed" ∧
    trimStr (toLowerStr "describe dataset X") ≠ "quit" ∧
    chatLoop failingToolState ["describe dataset X", "another question"]
      = ([], .errored "tool provider crashed") := by
  have h := processQuery_failure_aborts_loop failingToolState "describe dataset X"
    "tool provider crashed" ["another question"] rfl (by decide)
  exact ⟨rfl, by decide, h.1⟩

/-- C9 counterexample: a startup failure (connect error) does NOT surface a
non-zero abnormal termination — `main`'s `finally` block runs `cleanup` and
then `process.exit(0)` unconditionally, so the process exits with code 0
even though connecting failed. -/
theorem mainRun_startup_error_exit_zero_cex :
    mainRun (.error "Failed to connect to MCP server") ["some query", "quit"]
        emptyState (.ok ()) = .exited 0 := rfl

/-- C9 (amended): the loop stops reading input on a line whose lowercased,
trimmed form is "quit"; the process then exits with code 0.  But the exit
code is 0 whenever cleanup succeeds — regardless of a startup failure or of
how the loop ended — because `process.exit(0)` runs in `main`'s `finally`
block; only a failure of cleanup itself escapes as an abnormal
termination. -/
theorem chatLoop_quit_exit_spec (msg : String) (rest : List String)
    (st : OrchestratorState) (h : trimStr (toLowerStr msg) = "quit") :
    chatLoop st (msg :: rest) = ([], .quit) ∧
    (∀ (inputs : List String) (st2 : OrchestratorState),
      mainRun (.ok ()) inputs st2 (.ok ()) = .exited 0) ∧
    (∀ (e : String) (inputs : List String) (st2 : OrchestratorState),
      mainRun (.error e) inputs st2 (.ok ()) = .exited 0) ∧
    (∀ (ce : String) (connect : Except String Unit) (inputs : List String)
        (st2 : OrchestratorState),
      mainRun connect inputs st2 (.error ce) = .abnormal ce) := by
  refine ⟨by simp [chatLoop, h], ?_, ?_, ?_⟩
  · intro inputs st2
    rfl
  · intro e inputs st2
    rfl
  · intro ce connect inputs st2
    cases connect <;> rfl

theorem chatLoop_quit_exit_spec_witness :
    trimStr (toLowerStr "  QUIT ") = "quit" ∧
    chatLoop emptyState ["  QUIT ", "ignored input"] = ([], .quit) ∧
    mainRun (.error "Failed to connect to MCP server") ["  QUIT "] emptyState (.ok ())
      = .exited 0 := by
  have h := chatLoop_quit_exit_spec "  QUIT " ["ignored input"] emptyState rfl
  exact ⟨rfl, h.1, h.2.2.1 "Failed to connect to MCP server" ["  QUIT "] emptyState⟩
